import Mathlib

/-!
# Verification of the DecTree change-map classification pipeline

Shallow embedding of `src/dectree/core.py` (class `DecTree`).  Band values
are modelled as rationals, grids as functions `Nat → Nat → α` together with
explicit dimensions, and the numpy boolean-mask assignment as a
shape-checked operation returning `Except` (numpy raises `IndexError` when
a 2-d boolean index does not match the indexed array's shape).  External
library calls (GDAL warp/open, OGR intersection, `gdal.ComputeProximity`)
enter the model either as parameters (their results) or as definitions
modelled from the specification of their interface.
-/

namespace DecTree

/-- STRONG evidence rule, translated from `core.py` lines 225-232:
`blue<10 ∧ blue>2 ∧ red<-1 ∧ red>-5 ∧ nir<-1 ∧ nir>-5 ∧ kisqr<1500 ∧ kisqr>150`. -/
def total_change_strong (blue red nir kisqr : ℚ) : Bool :=
  ((decide (blue < 10) && decide (blue > 2)) &&
    (decide (red < -1) && decide (red > -5))) &&
  ((decide (nir < -1) && decide (nir > -5)) &&
    (decide (kisqr < 1500) && decide (kisqr > 150)))

/-- WEAK evidence rule, translated from `core.py` lines 235-242:
`blue<11 ∧ blue>1 ∧ red<0 ∧ red>-6 ∧ nir<0 ∧ nir>-6 ∧ kisqr<2000 ∧ kisqr>100`
(the source writes `-0.0`, which equals `0`). -/
def total_change_weak (blue red nir kisqr : ℚ) : Bool :=
  ((decide (blue < 11) && decide (blue > 1)) &&
    (decide (red < 0) && decide (red > -6))) &&
  ((decide (nir < 0) && decide (nir > -6)) &&
    (decide (kisqr < 2000) && decide (kisqr > 100)))

/-- No-data rule, `core.py` line 245: `kisqr_band >= 2000`. -/
def nodata_mask (kisqr : ℚ) : Bool :=
  decide (2000 ≤ kisqr)

/-- Excluded land-cover classes, `core.py` line 248:
`np.isin(lc_sub_array, [2, 3, 4, 5, 6])`. -/
def other_classes (lcv : Int) : Bool :=
  decide (lcv = 2 ∨ lcv = 3 ∨ lcv = 4 ∨ lcv = 5 ∨ lcv = 6)

/-- Per-cell effect of the numpy boolean-mask assignment `a[m] = 0`
(`core.py` lines 251-256): the cell is forced to false where the mask
holds and kept otherwise. -/
def mask_cell (m a : Bool) : Bool :=
  if m then false else a

/-- Per-cell evidence sum, `core.py` line 258:
`np.add(total_change_strong, total_change_weak, dtype=int)`. -/
def sum_change (strong weak : Nat → Nat → Bool) (i j : Nat) : Int :=
  (if strong i j then 1 else 0) + (if weak i j then 1 else 0)

/-- Per-cell confirmed change, `core.py` line 284:
`np.logical_and(total_change_weak, prx_array==0)`. -/
def total_change_cell (weakv : Bool) (prxv : Nat) : Bool :=
  weakv && decide (prxv = 0)

/-- C3: the STRONG threshold rule implies the WEAK threshold rule on every
cell, and the implication is preserved after the excluded-class and no-data
masks force cells of both grids to false (masks applied in the source's
order: excluded classes first, then no-data). -/
theorem strong_implies_weak (blue red nir kisqr : ℚ) (lcv : Int) :
    (total_change_strong blue red nir kisqr = true →
      total_change_weak blue red nir kisqr = true) ∧
    (mask_cell (nodata_mask kisqr)
        (mask_cell (other_classes lcv) (total_change_strong blue red nir kisqr)) = true →
      mask_cell (nodata_mask kisqr)
        (mask_cell (other_classes lcv) (total_change_weak blue red nir kisqr)) = true) := by
  have himp : total_change_strong blue red nir kisqr = true →
      total_change_weak blue red nir kisqr = true := by
    intro h
    simp only [total_change_strong, Bool.and_eq_true, decide_eq_true_eq] at h
    obtain ⟨⟨⟨hb1, hb2⟩, hr1, hr2⟩, ⟨hn1, hn2⟩, hk1, hk2⟩ := h
    simp only [total_change_weak, Bool.and_eq_true, decide_eq_true_eq]
    exact ⟨⟨⟨by linarith, by linarith⟩, by linarith, by linarith⟩,
      ⟨by linarith, by linarith⟩, by linarith, by linarith⟩
  refine ⟨himp, ?_⟩
  intro h
  cases hnd : nodata_mask kisqr <;> cases hoc : other_classes lcv <;>
    simp_all [mask_cell]

/-- Witness for `strong_implies_weak` at a concrete band vector that
satisfies the STRONG rule. -/
theorem strong_implies_weak_witness :
    total_change_weak 5 (-2) (-2) 800 = true :=
  (strong_implies_weak 5 (-2) (-2) 800 0).1 (by decide)

/-- C4: the confirmed-change grid is a subset of the WEAK grid — for every
weak grid, proximity map and cell, `confirmed AND NOT weak` is false. -/
theorem confirmed_subset_weak (weak : Nat → Nat → Bool) (prx : Nat → Nat → Nat)
    (i j : Nat) :
    (total_change_cell (weak i j) (prx i j) && !(weak i j)) = false := by
  cases h : weak i j <;> simp [total_change_cell, h]

/-- C10: forcing no-data cells to false in the WEAK grid is a no-op: the
no-data mask and the WEAK grid are disjoint (WEAK already requires
`kisqr < 2000`), so the masking step leaves the (already
excluded-class-masked) WEAK grid unchanged. -/
theorem nodata_masking_weak_noop (blue red nir kisqr : ℚ) (lcv : Int) :
    (nodata_mask kisqr && total_change_weak blue red nir kisqr) = false ∧
    mask_cell (nodata_mask kisqr)
        (mask_cell (other_classes lcv) (total_change_weak blue red nir kisqr)) =
      mask_cell (other_classes lcv) (total_change_weak blue red nir kisqr) := by
  by_cases hk : (2000 : ℚ) ≤ kisqr
  · have hweak : total_change_weak blue red nir kisqr = false := by
      simp only [total_change_weak, Bool.and_eq_false_iff]
      right; right; left
      simpa using not_lt.mpr hk
    have hnd : nodata_mask kisqr = true := by
      simp [nodata_mask, hk]
    refine ⟨by simp [hweak], ?_⟩
    cases hoc : other_classes lcv <;> simp [mask_cell, hnd, hweak, hoc]
  · have hnd : nodata_mask kisqr = false := by
      simp [nodata_mask, hk]
    simp [mask_cell, hnd]

/-- Chebyshev (chessboard) distance between the pixels `(i, j)` and
`(a, b)`. -/
def chebDist (i j a b : Nat) : Nat :=
  max (Nat.dist i a) (Nat.dist j b)

/-- Bounded scan of an `h × w` grid: does any cell satisfy `p`? -/
def anyCell (h w : Nat) (p : Nat → Nat → Bool) : Bool :=
  (List.range h).any fun a => (List.range w).any fun b => p a b

/-- Is there a cell of value `v` within Chebyshev distance `r` of
`(i, j)`? -/
def existsTargetWithin (v : Int) (r h w : Nat) (ev : Nat → Nat → Int) (i j : Nat) : Bool :=
  anyCell h w fun a b => decide (ev a b = v) && decide (chebDist i j a b ≤ r)

/-- Modelled from the spec: `gdal.ComputeProximity` (`core.py` lines
279-280) is an external GDAL routine, absent from this repository; the
spec describes it as marking every cell whose Chebyshev pixel distance to
the nearest cell of value `v` is at most `maxdist` (inclusive, seeds
themselves included at distance 0) with `fixedBufVal`, and every other
cell with the `nodataVal` sentinel.  The option values
`v = 2, maxdist = 5, fixedBufVal = 0, nodataVal = 255` are taken from the
source call. -/
def computeProximity (v : Int) (maxdist fixedBufVal nodataVal : Nat)
    (h w : Nat) (ev : Nat → Nat → Int) (i j : Nat) : Nat :=
  if existsTargetWithin v maxdist h w ev i j then fixedBufVal else nodataVal

theorem anyCell_eq_true (h w : Nat) (p : Nat → Nat → Bool) :
    anyCell h w p = true ↔ ∃ a, a < h ∧ ∃ b, b < w ∧ p a b = true := by
  simp [anyCell, List.any_eq_true, List.mem_range]

theorem existsTargetWithin_iff (v : Int) (r h w : Nat) (ev : Nat → Nat → Int)
    (i j : Nat) :
    existsTargetWithin v r h w ev i j = true ↔
      ∃ a, a < h ∧ ∃ b, b < w ∧ ev a b = v ∧ chebDist i j a b ≤ r := by
  simp [existsTargetWithin, anyCell_eq_true]

/-- C1: over the evidence grid `sum_change strong weak`, the proximity map
produced with the source's options (`VALUES=2, MAXDIST=5, FIXED_BUF_VAL=0,
NODATA=255`) marks a cell 0 exactly when some co-detected cell
(evidence 2) lies within Chebyshev distance 5 (inclusive) and 255
otherwise; consequently a weak-only cell whose nearest co-detected cell is
at Chebyshev distance exactly 5 is retained by the confirmed-change rule
of `core.py` line 284, while at nearest distance exactly 6 it is marked
255 and discarded. -/
theorem proximity_boundary (h w : Nat) (strong weak : Nat → Nat → Bool)
    (i j : Nat) (hi : i < h) (hj : j < w) :
    (computeProximity 2 5 0 255 h w (sum_change strong weak) i j = 0 ↔
      ∃ a, a < h ∧ ∃ b, b < w ∧ sum_change strong weak a b = 2 ∧
        chebDist i j a b ≤ 5) ∧
    (computeProximity 2 5 0 255 h w (sum_change strong weak) i j = 255 ↔
      ¬ ∃ a, a < h ∧ ∃ b, b < w ∧ sum_change strong weak a b = 2 ∧
        chebDist i j a b ≤ 5) ∧
    (existsTargetWithin 2 5 h w (sum_change strong weak) i j = true ∧
        existsTargetWithin 2 4 h w (sum_change strong weak) i j = false →
      weak i j = true → strong i j = false →
      total_change_cell (weak i j)
        (computeProximity 2 5 0 255 h w (sum_change strong weak) i j) = true) ∧
    (existsTargetWithin 2 6 h w (sum_change strong weak) i j = true ∧
        existsTargetWithin 2 5 h w (sum_change strong weak) i j = false →
      computeProximity 2 5 0 255 h w (sum_change strong weak) i j = 255 ∧
      total_change_cell (weak i j)
        (computeProximity 2 5 0 255 h w (sum_change strong weak) i j) = false) := by
  by_cases hE : existsTargetWithin 2 5 h w (sum_change strong weak) i j = true
  · refine ⟨?_, ?_, ?_, ?_⟩
    · rw [← existsTargetWithin_iff]
      simp [computeProximity, hE]
    · rw [← existsTargetWithin_iff]
      simp [computeProximity, hE]
    · intro _ hweak _
      simp [total_change_cell, computeProximity, hE, hweak]
    · rintro ⟨_, hnot5⟩
      rw [hE] at hnot5
      exact absurd hnot5 (by simp)
  · have hE' : existsTargetWithin 2 5 h w (sum_change strong weak) i j = false := by
      simpa using hE
    refine ⟨?_, ?_, ?_, ?_⟩
    · rw [← existsTargetWithin_iff]
      simp [computeProximity, hE']
    · rw [← existsTargetWithin_iff]
      simp [computeProximity, hE']
    · rintro ⟨h5, _⟩
      rw [hE'] at h5
      exact absurd h5 (by simp)
    · rintro ⟨_, _⟩
      simp [total_change_cell, computeProximity, hE']

/-- Example strong grid for the C1 witness: a single seed at `(0, 0)`. -/
def strongEx : Nat → Nat → Bool :=
  fun i j => decide (i = 0 ∧ j = 0)

/-- Example weak grid for the C1 witness: the seed plus a weak-only cell
at `(0, 5)`, at Chebyshev distance exactly 5 from the seed. -/
def weakEx : Nat → Nat → Bool :=
  fun i j => decide (i = 0 ∧ (j = 0 ∨ j = 5))

/-- Witness for `proximity_boundary` on a concrete 1 × 8 grid: the
weak-only cell at distance exactly 5 from the unique co-detected cell is
retained. -/
theorem proximity_boundary_witness :
    total_change_cell (weakEx 0 5)
      (computeProximity 2 5 0 255 1 8 (sum_change strongEx weakEx) 0 5) = true :=
  (proximity_boundary 1 8 strongEx weakEx 0 5 (by decide) (by decide)).2.2.1
    ⟨by decide, by decide⟩ (by decide) (by decide)

/-- A GDAL-style affine geotransform
`(origin x, pixel width, row rotation, origin y, column rotation, pixel height)`. -/
structure GeoTransform where
  c0 : ℚ
  c1 : ℚ
  c2 : ℚ
  c3 : ℚ
  c4 : ℚ
  c5 : ℚ
deriving DecidableEq

/-- Axis-aligned envelope `(xmin, xmax, ymin, ymax)` of a geometry, as
returned by `GetEnvelope` in `core.py` line 183. -/
structure Rect where
  xmin : ℚ
  xmax : ℚ
  ymin : ℚ
  ymax : ℚ
deriving DecidableEq

/-- Area of the (axis-aligned, possibly degenerate) intersection
rectangle, as returned by OGR's `Area()` in `core.py` line 177. -/
def Rect.area (r : Rect) : ℚ :=
  if r.xmin < r.xmax ∧ r.ymin < r.ymax then (r.xmax - r.xmin) * (r.ymax - r.ymin) else 0

/-- The numpy error raised by a boolean-mask assignment whose mask shape
does not match the indexed array's shape. -/
inductive NpError where
  | indexError
deriving DecidableEq

/-- Grid-level numpy boolean-mask assignment `a[m] = 0` for a 2-d array of
shape `(ha, wa)` and a 2-d boolean mask of shape `(hm, wm)`
(`core.py` lines 251-256).  numpy requires the mask shape to match the
array shape exactly and raises `IndexError` otherwise; no silent
truncation or broadcasting happens. -/
def maskAssignFalse (ha wa : Nat) (a : Nat → Nat → Bool) (hm wm : Nat)
    (m : Nat → Nat → Bool) : Except NpError (Nat → Nat → Bool) :=
  if ha = hm ∧ wa = wm then .ok (fun i j => mask_cell (m i j) (a i j))
  else .error .indexError

/-- Per-cell false-positive mask, `core.py` line 214:
`fm_sub_array == 1`. -/
def mask_fchm (fmv : Int) : Bool :=
  decide (fmv = 1)

/-- Per-cell forest change, `core.py` line 287:
`np.logical_and(total_change, lc_sub_array==0)`. -/
def forest_changes (tc : Bool) (lcv : Int) : Bool :=
  tc && decide (lcv = 0)

/-- Per-cell rangeland change, `core.py` line 290:
`np.logical_and(total_change, lc_sub_array==1)`. -/
def rangeland_changes (tc : Bool) (lcv : Int) : Bool :=
  tc && decide (lcv = 1)

/-- Per-cell label assignment, `core.py` lines 293-297: start from the
255 fill, assign 0 on forest changes, then 1 on rangeland changes, then
force 255 on the false-positive mask. -/
def final_array_cell (tc : Bool) (lcv fmv : Int) : Int :=
  let f0 : Int := 255
  let f1 : Int := if forest_changes tc lcv then 0 else f0
  let f2 : Int := if rangeland_changes tc lcv then 1 else f1
  if mask_fchm fmv then 255 else f2

/-- Follows the spec's words (§4.5): every cell starts at 255, becomes 0
where `confirmed AND landcover==0`, becomes 1 where
`confirmed AND landcover==1`, and the false-positive mask forces 255 last
and unconditionally. -/
def spec_label_cell (confirmed : Bool) (lcv fmv : Int) : Int :=
  if fmv = 1 then 255
  else if confirmed = true ∧ lcv = 0 then 0
  else if confirmed = true ∧ lcv = 1 then 1
  else 255

/-- The three rasters created by `__process_chmap` (evidence sum,
proximity, final labels) with the georeference and no-data metadata set on
them (`core.py` lines 261-308). -/
structure ChmapOutputs where
  sumGT : GeoTransform
  prxGT : GeoTransform
  binGT : GeoTransform
  binNoData : Int
  sumData : Nat → Nat → Int
  prxData : Nat → Nat → Nat
  binData : Nat → Nat → Int

/-- Result of one `__process_chmap` invocation: `fatalExit` models
`sys.exit(1)` on an unopenable input, `raised` a propagating numpy
exception, `noOutput` the normal return with no file created (the
no-overlap path), and `ok` the normal return after writing the output. -/
inductive ProcResult where
  | fatalExit
  | raised (e : NpError)
  | noOutput
  | ok (out : ChmapOutputs)

def ProcResult.sumGTq : ProcResult → Option GeoTransform
  | .ok o => some o.sumGT
  | _ => none

def ProcResult.prxGTq : ProcResult → Option GeoTransform
  | .ok o => some o.prxGT
  | _ => none

def ProcResult.binGTq : ProcResult → Option GeoTransform
  | .ok o => some o.binGT
  | _ => none

def ProcResult.binNoDataq : ProcResult → Option Int
  | .ok o => some o.binNoData
  | _ => none

/-- Shallow embedding of `DecTree.__process_chmap` (`core.py` lines
136-324).  External effects enter as parameters: `lcOpen`/`fmOpen` are the
success of the two `gdal.Open` calls, `inter` is the result of the OGR
`Intersection` call on the two bounding boxes (`none` models a null
geometry), the five band grids of shape `(hSub, wSub)` are the windowed
reads of the warped target raster, and the land-cover and false-mask grids
of shape `(hLc, wLc)` are the windowed reads of the reference rasters.
The body follows the source's order: open checks, overlap guard, relocated
geotransform, threshold grids, the four mask assignments, evidence sum,
proximity, confirmed change, and label assignment. -/
def processChmap (lcOpen fmOpen : Bool) (trgGT : GeoTransform)
    (inter : Option Rect) (hSub wSub : Nat)
    (blue green red nir kisqr : Nat → Nat → ℚ) (hLc wLc : Nat)
    (lc_sub_array fm_sub_array : Nat → Nat → Int) : ProcResult :=
  if lcOpen = true then
    if fmOpen = true then
      match inter with
      | none => .noOutput
      | some r =>
        if 0 < r.area then
          let new_trg_geoTrans : GeoTransform :=
            ⟨r.xmin, trgGT.c1, trgGT.c2, r.ymax, trgGT.c4, trgGT.c5⟩
          let strong0 : Nat → Nat → Bool := fun i j =>
            total_change_strong (blue i j) (red i j) (nir i j) (kisqr i j)
          let weak0 : Nat → Nat → Bool := fun i j =>
            total_change_weak (blue i j) (red i j) (nir i j) (kisqr i j)
          let nodata : Nat → Nat → Bool := fun i j => nodata_mask (kisqr i j)
          let other : Nat → Nat → Bool := fun i j => other_classes (lc_sub_array i j)
          match maskAssignFalse hSub wSub strong0 hLc wLc other with
          | .error e => .raised e
          | .ok strong1 =>
            match maskAssignFalse hSub wSub strong1 hSub wSub nodata with
            | .error e => .raised e
            | .ok strong2 =>
              match maskAssignFalse hSub wSub weak0 hLc wLc other with
              | .error e => .raised e
              | .ok weak1 =>
                match maskAssignFalse hSub wSub weak1 hSub wSub nodata with
                | .error e => .raised e
                | .ok weak2 =>
                  let prx : Nat → Nat → Nat := fun i j =>
                    computeProximity 2 5 0 255 hLc wLc (sum_change strong2 weak2) i j
                  let total_change : Nat → Nat → Bool := fun i j =>
                    total_change_cell (weak2 i j) (prx i j)
                  let final_array : Nat → Nat → Int := fun i j =>
                    final_array_cell (total_change i j) (lc_sub_array i j)
                      (fm_sub_array i j)
                  .ok ⟨new_trg_geoTrans, new_trg_geoTrans, new_trg_geoTrans, 255,
                    sum_change strong2 weak2, prx, final_array⟩
        else .noOutput
    else .fatalExit
  else .fatalExit

/-- C2: the per-cell label assignment of `core.py` lines 293-297 agrees
with the spec's description (initialize 255, then 0 on
`confirmed AND landcover==0`, then 1 on `confirmed AND landcover==1`, then
the false-positive veto back to 255, applied last and unconditionally),
and the written band's no-data value is 255. -/
theorem label_assignment_spec (tc : Bool) (lcv fmv : Int)
    (trgGT : GeoTransform) (r : Rect) (inter : Option Rect) (hSub wSub : Nat)
    (blue green red nir kisqr : Nat → Nat → ℚ) (hLc wLc : Nat)
    (lcA fmA : Nat → Nat → Int)
    (hin : inter = some r) (har : 0 < r.area) (hh : hSub = hLc) (hw : wSub = wLc) :
    final_array_cell tc lcv fmv = spec_label_cell tc lcv fmv ∧
    (processChmap true true trgGT inter hSub wSub blue green red nir kisqr
        hLc wLc lcA fmA).binNoDataq = some 255 := by
  constructor
  · cases tc <;> by_cases hf : fmv = 1 <;> by_cases h0 : lcv = 0 <;>
      by_cases h1 : lcv = 1 <;>
      simp_all [final_array_cell, spec_label_cell, forest_changes,
        rangeland_changes, mask_fchm]
  · subst hin hh hw
    simp [processChmap, maskAssignFalse, har, ProcResult.binNoDataq]

/-- Witness for `label_assignment_spec` on a concrete 1 × 1 overlap. -/
theorem label_assignment_spec_witness :
    final_array_cell true 0 0 = spec_label_cell true 0 0 ∧
    (processChmap true true ⟨0, 10, 0, 0, 0, -10⟩ (some ⟨0, 10, 0, 10⟩) 1 1
        (fun _ _ => 0) (fun _ _ => 0) (fun _ _ => 0) (fun _ _ => 0)
        (fun _ _ => 0) 1 1 (fun _ _ => 0) (fun _ _ => 0)).binNoDataq =
      some 255 :=
  label_assignment_spec true 0 0 ⟨0, 10, 0, 0, 0, -10⟩ ⟨0, 10, 0, 10⟩
    (some ⟨0, 10, 0, 10⟩) 1 1 (fun _ _ => 0) (fun _ _ => 0) (fun _ _ => 0)
    (fun _ _ => 0) (fun _ _ => 0) 1 1 (fun _ _ => 0) (fun _ _ => 0)
    rfl (by norm_num [Rect.area]) rfl rfl

/-- C5: when the OGR intersection of the two bounding polygons is null or
has non-positive area, `__process_chmap` returns normally with no output
created: no exception, no exit, no file written (the body of the guard at
`core.py` line 177 is skipped). -/
theorem no_overlap_no_output (lcOpen fmOpen : Bool) (trgGT : GeoTransform)
    (inter : Option Rect) (hSub wSub : Nat)
    (blue green red nir kisqr : Nat → Nat → ℚ) (hLc wLc : Nat)
    (lcA fmA : Nat → Nat → Int)
    (hlc : lcOpen = true) (hfm : fmOpen = true)
    (hno : inter = none ∨ ∃ r, inter = some r ∧ r.area ≤ 0) :
    processChmap lcOpen fmOpen trgGT inter hSub wSub blue green red nir kisqr
      hLc wLc lcA fmA = .noOutput := by
  subst hlc hfm
  rcases hno with hnone | ⟨r, hr, harea⟩
  · subst hnone
    simp [processChmap]
  · subst hr
    simp [processChmap, not_lt.mpr harea]

/-- Witness for `no_overlap_no_output` at a degenerate (zero-area)
intersection. -/
theorem no_overlap_no_output_witness :
    processChmap true true ⟨0, 10, 0, 0, 0, -10⟩ (some ⟨0, 0, 0, 10⟩) 1 1
      (fun _ _ => 0) (fun _ _ => 0) (fun _ _ => 0) (fun _ _ => 0)
      (fun _ _ => 0) 1 1 (fun _ _ => 0) (fun _ _ => 0) = .noOutput :=
  no_overlap_no_output true true ⟨0, 10, 0, 0, 0, -10⟩ (some ⟨0, 0, 0, 10⟩)
    1 1 (fun _ _ => 0) (fun _ _ => 0) (fun _ _ => 0) (fun _ _ => 0)
    (fun _ _ => 0) 1 1 (fun _ _ => 0) (fun _ _ => 0) rfl rfl
    (Or.inr ⟨⟨0, 0, 0, 10⟩, rfl, by norm_num [Rect.area]⟩)

/-- C7: on the overlap path, every output raster (evidence sum, proximity,
final labels) is georeferenced with the geotransform whose pixel-size and
rotation terms are the target raster's and whose origin is relocated to
`(xmin, ymax)` of the intersection envelope (`core.py` lines 186-188,
265, 274, 301). -/
theorem outputs_georeference (trgGT : GeoTransform) (r : Rect)
    (inter : Option Rect) (hSub wSub : Nat)
    (blue green red nir kisqr : Nat → Nat → ℚ) (hLc wLc : Nat)
    (lcA fmA : Nat → Nat → Int)
    (hin : inter = some r) (har : 0 < r.area) (hh : hSub = hLc) (hw : wSub = wLc) :
    (processChmap true true trgGT inter hSub wSub blue green red nir kisqr
        hLc wLc lcA fmA).sumGTq =
      some ⟨r.xmin, trgGT.c1, trgGT.c2, r.ymax, trgGT.c4, trgGT.c5⟩ ∧
    (processChmap true true trgGT inter hSub wSub blue green red nir kisqr
        hLc wLc lcA fmA).prxGTq =
      some ⟨r.xmin, trgGT.c1, trgGT.c2, r.ymax, trgGT.c4, trgGT.c5⟩ ∧
    (processChmap true true trgGT inter hSub wSub blue green red nir kisqr
        hLc wLc lcA fmA).binGTq =
      some ⟨r.xmin, trgGT.c1, trgGT.c2, r.ymax, trgGT.c4, trgGT.c5⟩ := by
  subst hin hh hw
  simp [processChmap, maskAssignFalse, har, ProcResult.sumGTq,
    ProcResult.prxGTq, ProcResult.binGTq]

/-- Witness for `outputs_georeference` on a concrete 1 × 1 overlap. -/
theorem outputs_georeference_witness :
    (processChmap true true ⟨0, 10, 0, 20, 0, -10⟩ (some ⟨3, 13, 0, 7⟩) 1 1
        (fun _ _ => 0) (fun _ _ => 0) (fun _ _ => 0) (fun _ _ => 0)
        (fun _ _ => 0) 1 1 (fun _ _ => 0) (fun _ _ => 0)).sumGTq =
      some ⟨3, 10, 0, 7, 0, -10⟩ ∧
    (processChmap true true ⟨0, 10, 0, 20, 0, -10⟩ (some ⟨3, 13, 0, 7⟩) 1 1
        (fun _ _ => 0) (fun _ _ => 0) (fun _ _ => 0) (fun _ _ => 0)
        (fun _ _ => 0) 1 1 (fun _ _ => 0) (fun _ _ => 0)).prxGTq =
      some ⟨3, 10, 0, 7, 0, -10⟩ ∧
    (processChmap true true ⟨0, 10, 0, 20, 0, -10⟩ (some ⟨3, 13, 0, 7⟩) 1 1
        (fun _ _ => 0) (fun _ _ => 0) (fun _ _ => 0) (fun _ _ => 0)
        (fun _ _ => 0) 1 1 (fun _ _ => 0) (fun _ _ => 0)).binGTq =
      some ⟨3, 10, 0, 7, 0, -10⟩ :=
  outputs_georeference ⟨0, 10, 0, 20, 0, -10⟩ ⟨3, 13, 0, 7⟩
    (some ⟨3, 13, 0, 7⟩) 1 1 (fun _ _ => 0) (fun _ _ => 0) (fun _ _ => 0)
    (fun _ _ => 0) (fun _ _ => 0) 1 1 (fun _ _ => 0) (fun _ _ => 0)
    rfl (by norm_num [Rect.area]) rfl rfl

/-- C8: when the aligned windows of the target and the reference disagree
in width or height, the classification step raises a numpy `IndexError`
at the first mask assignment mixing the two shapes (`core.py` line 251)
— no silent truncation or broadcasting — and no output grid is
produced. -/
theorem shape_mismatch_raises (trgGT : GeoTransform) (r : Rect)
    (inter : Option Rect) (hSub wSub : Nat)
    (blue green red nir kisqr : Nat → Nat → ℚ) (hLc wLc : Nat)
    (lcA fmA : Nat → Nat → Int)
    (hin : inter = some r) (har : 0 < r.area)
    (hne : ¬(hSub = hLc ∧ wSub = wLc)) :
    processChmap true true trgGT inter hSub wSub blue green red nir kisqr
      hLc wLc lcA fmA = .raised .indexError := by
  subst hin
  simp [processChmap, maskAssignFalse, har, hne]

/-- Witness for `shape_mismatch_raises` with a 1-row target window against
a 2-row reference window. -/
theorem shape_mismatch_raises_witness :
    processChmap true true ⟨0, 10, 0, 20, 0, -10⟩ (some ⟨3, 13, 0, 7⟩) 1 1
      (fun _ _ => 0) (fun _ _ => 0) (fun _ _ => 0) (fun _ _ => 0)
      (fun _ _ => 0) 2 1 (fun _ _ => 0) (fun _ _ => 0) = .raised .indexError :=
  shape_mismatch_raises ⟨0, 10, 0, 20, 0, -10⟩ ⟨3, 13, 0, 7⟩
    (some ⟨3, 13, 0, 7⟩) 1 1 (fun _ _ => 0) (fun _ _ => 0) (fun _ _ => 0)
    (fun _ _ => 0) (fun _ _ => 0) 2 1 (fun _ _ => 0) (fun _ _ => 0)
    rfl (by norm_num [Rect.area]) (by simp)

/-- Fuel-driven model of Python's `str.replace` scan: at each position,
if the pattern matches, emit the replacement and continue after the match
(non-overlapping, left to right), else keep the character and move on.
The fuel is instantiated with the string length, which bounds the number
of steps. -/
def replaceAux (pat rep : List Char) : Nat → List Char → List Char
  | _, [] => []
  | 0, s => s
  | fuel + 1, c :: cs =>
    if pat ≠ [] ∧ (c :: cs).take pat.length = pat then
      rep ++ replaceAux pat rep fuel ((c :: cs).drop pat.length)
    else
      c :: replaceAux pat rep fuel cs

/-- Python's `str.replace(pat, rep)` for a non-empty pattern: replaces
every non-overlapping occurrence, scanning left to right. -/
def pyReplace (s pat rep : String) : String :=
  ⟨replaceAux pat.data rep.data s.data.length s.data⟩

/-- `os.path.join` for a relative second component. -/
def pathJoin (a b : String) : String :=
  a ++ "/" ++ b

/-- The output filename, `core.py` line 386:
`bname = file.replace('CHMAP', 'BIN')`. -/
def bname (file : String) : String :=
  pyReplace file "CHMAP" "BIN"

/-- The output path, `core.py` lines 375 and 386-387:
`os.path.join(output_base_dir, tile)` joined with `bname`. -/
def bin_file_path (output_base_dir tile file : String) : String :=
  pathJoin (pathJoin output_base_dir tile) (bname file)

/-- Write one file into a path-indexed filesystem model. -/
def fsWrite (fs : String → Option Nat) (p : String) (c : Nat) :
    String → Option Nat :=
  fun q => if q = p then some c else fs q

/-- Shallow embedding of the per-file body of `DecTree.run` (`core.py`
lines 383-419).  The filesystem is a map from paths to file contents
(abstract tokens).  `procContent` is the effect of `__process_chmap`
(`none` when it writes nothing, e.g. no overlap); `zipName` is the
archive name the database seeder writes under the fresh temporary
directory when `seed_db` is set.  The returned boolean records whether
`__process_chmap` was invoked. -/
def runStep (fs : String → Option Nat) (output_base_dir tile file : String)
    (seed_db : Bool) (temp_dir zipName : String) (procContent : Option Nat)
    (zipContent : Nat) : (String → Option Nat) × Bool :=
  let bin_path := bin_file_path output_base_dir tile file
  if fs bin_path = none then
    let fs1 := match procContent with
      | some c => fsWrite fs bin_path c
      | none => fs
    let fs2 := if seed_db then fsWrite fs1 (pathJoin temp_dir zipName) zipContent
      else fs1
    (fs2, true)
  else
    let fs2 := if seed_db then fsWrite fs (pathJoin temp_dir zipName) zipContent
      else fs
    (fs2, false)

/-- C6: when the output path already exists, the re-run leaves the
existing file untouched and does not invoke the classification step
(`core.py` lines 393-419); only the fresh temporary directory may receive
a write (the database-seeding archive). -/
theorem existing_output_skipped (fs : String → Option Nat)
    (output_base_dir tile file : String) (seed_db : Bool)
    (temp_dir zipName : String) (procContent : Option Nat) (zipContent c : Nat)
    (hex : fs (bin_file_path output_base_dir tile file) = some c)
    (hz : pathJoin temp_dir zipName ≠ bin_file_path output_base_dir tile file) :
    (runStep fs output_base_dir tile file seed_db temp_dir zipName procContent
        zipContent).2 = false ∧
    (runStep fs output_base_dir tile file seed_db temp_dir zipName procContent
        zipContent).1 (bin_file_path output_base_dir tile file) = some c ∧
    ∀ p, p ≠ pathJoin temp_dir zipName →
      (runStep fs output_base_dir tile file seed_db temp_dir zipName
          procContent zipContent).1 p = fs p := by
  have hne : ¬ fs (bin_file_path output_base_dir tile file) = none := by
    simp [hex]
  cases seed_db <;>
    refine ⟨by simp [runStep, hne], ?_, ?_⟩
  · simpa [runStep, hne] using hex
  · intro p _
    simp [runStep, hne]
  · simpa [runStep, hne, fsWrite, Ne.symm hz] using hex
  · intro p hp
    simp [runStep, hne, fsWrite, hp]

/-- Witness for `existing_output_skipped` on a concrete filesystem holding
the output already. -/
theorem existing_output_skipped_witness :
    (runStep
        (fun p => if p = "out/T1/S2_BIN_1.tif" then some 7 else none)
        "out" "T1" "S2_CHMAP_1.tif" true "/tmp0" "z.zip" (some 9) 3).2 = false ∧
    (runStep
        (fun p => if p = "out/T1/S2_BIN_1.tif" then some 7 else none)
        "out" "T1" "S2_CHMAP_1.tif" true "/tmp0" "z.zip" (some 9) 3).1
      (bin_file_path "out" "T1" "S2_CHMAP_1.tif") = some 7 ∧
    ∀ p, p ≠ pathJoin "/tmp0" "z.zip" →
      (runStep
          (fun p => if p = "out/T1/S2_BIN_1.tif" then some 7 else none)
          "out" "T1" "S2_CHMAP_1.tif" true "/tmp0" "z.zip" (some 9) 3).1 p =
        (fun p => if p = "out/T1/S2_BIN_1.tif" then some 7 else none) p :=
  existing_output_skipped
    (fun p => if p = "out/T1/S2_BIN_1.tif" then some 7 else none)
    "out" "T1" "S2_CHMAP_1.tif" true "/tmp0" "z.zip" (some 9) 3 7
    (by decide) (by decide)

/-- C9: the output is written exactly at the per-tile output directory
joined with the input filename in which `CHMAP` is replaced by `BIN`
(`core.py` lines 386-387), and nothing else outside the temporary
directory is written. -/
theorem output_naming (fs : String → Option Nat)
    (output_base_dir tile file : String) (seed_db : Bool)
    (temp_dir zipName : String) (procContent : Option Nat) (zipContent c : Nat)
    (hnew : fs (bin_file_path output_base_dir tile file) = none)
    (hproc : procContent = some c)
    (hz : pathJoin temp_dir zipName ≠ bin_file_path output_base_dir tile file) :
    bin_file_path output_base_dir tile file =
      pathJoin (pathJoin output_base_dir tile) (pyReplace file "CHMAP" "BIN") ∧
    (runStep fs output_base_dir tile file seed_db temp_dir zipName procContent
        zipContent).1 (bin_file_path output_base_dir tile file) = some c ∧
    ∀ p, (runStep fs output_base_dir tile file seed_db temp_dir zipName
        procContent zipContent).1 p ≠ fs p →
      p = bin_file_path output_base_dir tile file ∨
        p = pathJoin temp_dir zipName := by
  subst hproc
  refine ⟨rfl, ?_, ?_⟩
  · cases seed_db <;>
      simp [runStep, hnew, fsWrite, Ne.symm hz]
  · intro p hp
    by_cases hb : p = bin_file_path output_base_dir tile file
    · exact Or.inl hb
    · by_cases hzp : p = pathJoin temp_dir zipName
      · exact Or.inr hzp
      · exact absurd (by cases seed_db <;> simp [runStep, hnew, fsWrite, hb, hzp])
          hp

/-- Witness for `output_naming`: the concrete input name
`S2_CHMAP_1.tif` is written as `S2_BIN_1.tif` under `out/T1`. -/
theorem output_naming_witness :
    (runStep (fun _ => none) "out" "T1" "S2_CHMAP_1.tif" false "/tmp0" "z.zip"
        (some 9) 3).1 (bin_file_path "out" "T1" "S2_CHMAP_1.tif") = some 9 ∧
    bin_file_path "out" "T1" "S2_CHMAP_1.tif" = "out/T1/S2_BIN_1.tif" :=
  ⟨(output_naming (fun _ => none) "out" "T1" "S2_CHMAP_1.tif" false "/tmp0"
      "z.zip" (some 9) 3 9 rfl rfl (by decide)).2.1, by decide⟩

end DecTree
